import Mathlib

/-!
# SafeStream core: shallow embedding and verification

This file embeds the real-time connection/broadcast/moderation-gate engine of
the SafeStream repository (`app/main.py`, `app/moderation.py`, `app/metrics.py`,
`app/events.py`, `app/schemas.py`, `app/services/database.py`) as executable
Lean definitions, and proves or refutes the specification claims about it.

Conventions of the embedding:
* toxicity scores and thresholds are rationals (`ℚ`), timestamps are integers
  (`ℤ`, seconds since an arbitrary epoch);
* WebSocket connections are abstract identifiers (`ℕ`);
* the external toxicity model is an input (`Option ℚ`: `none` = model missing);
* sends to peers may fail; success is an input predicate `sendOk : ℕ → Bool`;
* database rows live in explicit in-memory lists inside a `Db` record and every
  stateful operation is explicit state passing.
-/

namespace SafeStream

/-- JSON-ish values appearing in request bodies and inbound websocket fields. -/
inductive Json where
  | jnull
  | jbool (b : Bool)
  | jnum (q : ℚ)
  | jstr (s : String)
  | jarr
deriving DecidableEq, Repr

/-- Primitive values appearing in serialized outbound payloads. -/
inductive JVal where
  | vs (s : String)
  | vi (n : ℤ)
  | vb (b : Bool)
  | vq (q : ℚ)
deriving DecidableEq, Repr

/-! ## `app/metrics.py` — MetricsTracker -/

/-- Embedding of `MetricsTracker`'s mutable counters (`app/metrics.py`). -/
structure MetricsTracker where
  gift_count : ℕ
  chat_message_total : ℕ
  toxic_message_total : ℕ
deriving DecidableEq, Repr

/-- `MetricsTracker.__init__`: all counters start at zero. -/
def MetricsTracker.init : MetricsTracker :=
  { gift_count := 0, chat_message_total := 0, toxic_message_total := 0 }

/-- `MetricsTracker.increment_gift_count`. -/
def MetricsTracker.increment_gift_count (m : MetricsTracker) : MetricsTracker :=
  { m with gift_count := m.gift_count + 1 }

/-- `MetricsTracker.increment_chat_message`: always bumps the chat total and
bumps the toxic total exactly when the message was flagged toxic. -/
def MetricsTracker.increment_chat_message (m : MetricsTracker) (isToxic : Bool) :
    MetricsTracker :=
  { m with
    chat_message_total := m.chat_message_total + 1
    toxic_message_total := m.toxic_message_total + (if isToxic then 1 else 0) }

/-- `MetricsTracker.get_toxic_percentage`: guarded division, returns 0.0 when
no chat message has been counted. -/
def MetricsTracker.get_toxic_percentage (m : MetricsTracker) : ℚ :=
  if m.chat_message_total = 0 then 0
  else ((m.toxic_message_total : ℚ) / (m.chat_message_total : ℚ)) * 100

/-- `MetricsTracker.reset`: zero all counters. -/
def MetricsTracker.reset (_m : MetricsTracker) : MetricsTracker :=
  { gift_count := 0, chat_message_total := 0, toxic_message_total := 0 }

/-- The operations callers of the tracker perform on it. -/
inductive MOp where
  | incChat (toxic : Bool)
  | incGift
  | resetOp
deriving DecidableEq, Repr

/-- One tracker operation. -/
def mStep (m : MetricsTracker) (op : MOp) : MetricsTracker :=
  match op with
  | .incChat b => m.increment_chat_message b
  | .incGift => m.increment_gift_count
  | .resetOp => m.reset

/-- Replay a sequence of tracker operations from the initial state. -/
def applyMOps (ops : List MOp) : MetricsTracker :=
  ops.foldl mStep MetricsTracker.init

/-! ## `app/moderation.py` — predict -/

/-- Embedding of `moderation.predict(text, threshold)`.

`disabled` is the `DISABLE_DETOXIFY=1` stub mode; `modelScore` is the model's
toxicity score for the text (`none` when the Detoxify import failed);
`thresholdArg` is the threshold argument, `envThreshold` the `TOXIC_THRESHOLD`
environment fallback. Returns `(is_toxic, score)`. -/
def predict (disabled : Bool) (modelScore : Option ℚ) (thresholdArg : Option ℚ)
    (envThreshold : ℚ) : Bool × ℚ :=
  if disabled then (false, 0)
  else
    match modelScore with
    | none => (false, 0)
    | some score =>
        let effectiveThreshold := thresholdArg.getD envThreshold
        (decide (score ≥ effectiveThreshold), score)

/-! ## `app/services/database.py` — settings, mutes, threshold, users -/

/-- A stored `user_mute_{id}` settings value. The code stores mutes as strings
(`mute_until.isoformat()`); `valid t` is a parsable timestamp, `invalid` an
unparsable string, `empty` the cleared value `""` (which `get_user_mute` treats
as absent, since `if not mute_value` is true for `""`). -/
inductive MuteVal where
  | valid (t : ℤ)
  | invalid
  | empty
deriving DecidableEq, Repr

/-- The stored `toxicity_threshold` settings value: a string that either parses
as a float (`num q`) or does not (`badStr`, in which case `float()` raises and
`get_toxicity_threshold` falls back to the default 0.6). -/
inductive TVal where
  | num (q : ℚ)
  | badStr
deriving DecidableEq, Repr

/-- A persisted chat message row (`app/db/models.py` `Message`). -/
structure PersistedMsg where
  id : ℕ
  userId : ℕ
  text : String
  toxicityFlag : Bool
  toxicityScore : Option ℚ
  messageType : String
  ts : ℤ
deriving DecidableEq, Repr

/-- A persisted admin-action audit row (`app/db/models.py` `AdminAction`). -/
structure AdminActionRow where
  adminUserId : ℕ
  action : String
  targetUserId : Option ℕ
  details : String
deriving DecidableEq, Repr

/-- The durable store visible to the core: users, sessions, messages, the audit
log, the per-user mute settings and the toxicity-threshold setting. Sessions
are `(user_id, is_active)`; settings keys `user_mute_{uid}` are represented by
the `uid` itself and `toxicity_threshold` by the dedicated field (the string
keys are distinct, so this split is faithful). -/
structure Db where
  users : List (ℕ × String)
  nextUserId : ℕ
  sessions : List (ℕ × Bool)
  messages : List PersistedMsg
  nextMsgId : ℕ
  adminActions : List AdminActionRow
  muteSettings : List (ℕ × MuteVal)
  threshold : Option TVal
deriving DecidableEq, Repr

/-- `get_user_by_username`: first row whose username matches, as an id. -/
def lookupUser (users : List (ℕ × String)) (name : String) : Option ℕ :=
  (users.find? (fun p => p.2 = name)).map (fun p => p.1)

/-- The get-or-create pattern used by the websocket handler and admin
endpoints: look the username up, lazily creating the row if absent. -/
def getOrCreateUser (db : Db) (name : String) : ℕ × Db :=
  match lookupUser db.users name with
  | some uid => (uid, db)
  | none =>
      (db.nextUserId,
        { db with
          users := db.users ++ [(db.nextUserId, name)]
          nextUserId := db.nextUserId + 1 })

/-- Read the `user_mute_{uid}` setting. -/
def getMuteSetting (db : Db) (uid : ℕ) : Option MuteVal :=
  (db.muteSettings.find? (fun p => p.1 = uid)).map (fun p => p.2)

/-- `set_setting` specialised to a `user_mute_{uid}` key: update in place when
the key exists, else append a new row. -/
def setMuteSetting (db : Db) (uid : ℕ) (v : MuteVal) : Db :=
  if (db.muteSettings.find? (fun p => p.1 = uid)).isSome then
    { db with
      muteSettings := db.muteSettings.map (fun p => if p.1 = uid then (uid, v) else p) }
  else
    { db with muteSettings := db.muteSettings ++ [(uid, v)] }

/-- `get_user_mute`: absent or `""` values read as not muted; an unparsable
value is cleared (set to `""`) and reads as not muted. -/
def get_user_mute (db : Db) (uid : ℕ) : Option ℤ × Db :=
  match getMuteSetting db uid with
  | none => (none, db)
  | some .empty => (none, db)
  | some .invalid => (none, setMuteSetting db uid .empty)
  | some (.valid t) => (some t, db)

/-- `is_user_muted`: muted iff `now < expiry`; an expired mute is cleared as a
side effect of the query. -/
def is_user_muted (db : Db) (uid : ℕ) (now : ℤ) : Bool × Db :=
  match get_user_mute db uid with
  | (none, db1) => (false, db1)
  | (some t, db1) =>
      if now < t then (true, db1)
      else (false, setMuteSetting db1 uid .empty)

/-- `get_toxicity_threshold`: the stored value, defaulting to 0.6 when the
setting is absent or not parseable as a float. -/
def get_toxicity_threshold (db : Db) : ℚ :=
  match db.threshold with
  | none => 6 / 10
  | some (.num q) => q
  | some .badStr => 6 / 10

/-- `db_service.set_toxicity_threshold`: raises `ValueError` outside [0, 1],
otherwise persists the setting. -/
def db_set_toxicity_threshold (db : Db) (q : ℚ) : Except String Db :=
  if 0 ≤ q ∧ q ≤ 1 then .ok { db with threshold := some (.num q) }
  else .error "Toxicity threshold must be between 0.0 and 1.0"

/-! ## Connection registry (`connected` set and `websocket_usernames` dict in
`app/main.py`) -/

/-- The module-level registry: the `connected` set of live sockets and the
`websocket_usernames` socket-to-username dict. -/
structure Registry where
  conns : List ℕ
  names : List (ℕ × String)
deriving DecidableEq, Repr

/-- `connected.add(ws); websocket_usernames[ws] = username`. -/
def addConn (reg : Registry) (c : ℕ) (u : String) : Registry :=
  { conns := if c ∈ reg.conns then reg.conns else reg.conns ++ [c]
    names :=
      if (reg.names.find? (fun p => p.1 = c)).isSome then
        reg.names.map (fun p => if p.1 = c then (c, u) else p)
      else
        reg.names ++ [(c, u)] }

/-- `connected.discard(ws); websocket_usernames.pop(ws, None)`. -/
def removeConn (reg : Registry) (c : ℕ) : Registry :=
  { conns := reg.conns.filter (fun x => x ≠ c)
    names := reg.names.filter (fun p => p.1 ≠ c) }

/-! ## `app/schemas.py` — ChatMessageIn and ChatMessageOut -/

/-- The two fields of an inbound websocket JSON object that
`schemas.ChatMessageIn` inspects (extra keys are ignored by pydantic). `none`
means the key is absent. -/
structure RawInbound where
  typeField : Option Json
  messageField : Option Json
deriving DecidableEq, Repr

/-- Result of pydantic validation of `ChatMessageIn`. -/
structure ChatIn where
  message : String
deriving DecidableEq, Repr

/-- The `type` field is `Literal["chat"]` with default `"chat"`: an absent key
validates (default applied); a present key validates only as the string
`"chat"`. -/
def typeTagOk (t : Option Json) : Bool :=
  match t with
  | none => true
  | some (.jstr s) => s = "chat"
  | some _ => false

/-- `schemas.ChatMessageIn(**message_data)`: `message` must be present and a
string (any string, the empty string included — the field has no length
constraint); `type`, when present, must be the literal `"chat"`. `none` is a
pydantic `ValidationError`. -/
def parseChatMessageIn (r : RawInbound) : Option ChatIn :=
  if typeTagOk r.typeField then
    match r.messageField with
    | some (.jstr m) => some { message := m }
    | _ => none
  else none

/-- The declared fields of `schemas.ChatMessageOut`: `type`, `id`, `user`,
`message`, `toxic`, `score`, `ts` — and nothing else. -/
structure ChatMessageOut where
  id : ℕ
  user : String
  message : String
  toxic : Bool
  score : ℚ
  ts : ℤ
deriving DecidableEq, Repr

/-- The constructor call made in `app/main.py`
(`schemas.ChatMessageOut(id=..., ..., blocked=...)`): the model declares no
`blocked` field, so pydantic ignores that keyword argument and only the
declared fields are stored. -/
def mkChatMessageOut (id : ℕ) (user message : String) (toxic : Bool) (score : ℚ)
    (ts : ℤ) (_blockedArg : Bool) : ChatMessageOut :=
  { id := id, user := user, message := message, toxic := toxic, score := score,
    ts := ts }

/-- `model_dump_json()` on a `ChatMessageOut`: one key per declared field. -/
def serializeChatMessageOut (m : ChatMessageOut) : List (String × JVal) :=
  [("type", .vs "chat"), ("id", .vi m.id), ("user", .vs m.user),
   ("message", .vs m.message), ("toxic", .vb m.toxic), ("score", .vq m.score),
   ("ts", .vi m.ts)]

/-! ## The websocket message-handling loop body (`app/main.py` lines 457-596) -/

/-- An event pushed to a single client over its websocket. -/
inductive OutEvent where
  | chatOut (payload : List (String × JVal))
  | mutedNotice (mutedUntil : Option ℤ)
  | errorEvt (error detail : String)
deriving DecidableEq, Repr

/-- The branch the moderation gate took for an accepted message. -/
inductive Decision where
  | blockedD
  | broadcastD
deriving DecidableEq, Repr

/-- Everything one iteration of the websocket receive loop produces: the
updated registry / store / metrics, the sends attempted (in order, with their
target connection), which branch was taken, the toxicity flag and score handed
to the outbound message, whether the scorer model was invoked, and whether the
handler closed the connection. -/
structure HandleResult where
  registry : Registry
  db : Db
  metrics : MetricsTracker
  sends : List (ℕ × OutEvent)
  decision : Option Decision
  toxicFlag : Option Bool
  scoreOut : Option ℚ
  scorerCalled : Bool
  closedConn : Bool
deriving DecidableEq, Repr

/-- Embedding of the body of the `while True` receive loop of
`websocket_endpoint` for one parsed inbound JSON object.

Control flow follows the source: validate the message shape (on failure send a
structured error to the sender only; if that send itself fails, close the
connection); get-or-create the sender's user row; consult the mute state (if
muted, send exactly one muted notice carrying the expiry and stop); fetch the
threshold; score; bump metrics; persist; then either return the message to the
sender alone (`blocked`) or fan it out over a copy of the registry, evicting
the connections whose send failed. -/
def handleMessage (disabled : Bool) (envThreshold : ℚ) (modelScore : Option ℚ)
    (sendOk : ℕ → Bool) (username : String) (sender : ℕ) (now : ℤ)
    (reg : Registry) (db : Db) (m : MetricsTracker) (inbound : RawInbound) :
    HandleResult :=
  match parseChatMessageIn inbound with
  | none =>
      { registry := reg, db := db, metrics := m
        sends := [(sender, .errorEvt "Invalid message format" "validation error")]
        decision := none, toxicFlag := none, scoreOut := none
        scorerCalled := false
        closedConn := ¬ sendOk sender }
  | some chatIn =>
      let userDb := getOrCreateUser db username
      let uid := userDb.1
      let db1 := userDb.2
      let mutedDb := is_user_muted db1 uid now
      let db2 := mutedDb.2
      if mutedDb.1 then
        let muteDb := get_user_mute db2 uid
        { registry := if sendOk sender then reg else removeConn reg sender
          db := muteDb.2, metrics := m
          sends := [(sender, .mutedNotice muteDb.1)]
          decision := none, toxicFlag := none, scoreOut := none
          scorerCalled := false, closedConn := false }
      else
        let threshold := get_toxicity_threshold db2
        let scored := predict disabled modelScore (some threshold) envThreshold
        let toxic := scored.1
        let score := scored.2
        let m1 := m.increment_chat_message toxic
        let savedMsg : PersistedMsg :=
          { id := db2.nextMsgId, userId := uid, text := chatIn.message
            toxicityFlag := toxic, toxicityScore := some score
            messageType := "chat", ts := now }
        let db3 := { db2 with
          messages := db2.messages ++ [savedMsg]
          nextMsgId := db2.nextMsgId + 1 }
        let payload := serializeChatMessageOut
          (mkChatMessageOut savedMsg.id username chatIn.message toxic score now toxic)
        if toxic then
          { registry := if sendOk sender then reg else removeConn reg sender
            db := db3, metrics := m1
            sends := [(sender, .chatOut payload)]
            decision := some .blockedD
            toxicFlag := some toxic, scoreOut := some score
            scorerCalled := !disabled && modelScore.isSome
            closedConn := false }
        else
          { registry := (reg.conns.filter (fun c => ¬ sendOk c)).foldl removeConn reg
            db := db3, metrics := m1
            sends := reg.conns.map (fun c => (c, .chatOut payload))
            decision := some .broadcastD
            toxicFlag := some toxic, scoreOut := some score
            scorerCalled := !disabled && modelScore.isSome
            closedConn := false }

/-! ## Connection handshake (`websocket_endpoint` pre-accept checks) -/

/-- `validate_username` (`app/main.py`): non-empty, at most
`MAX_USERNAME_LENGTH = 50` characters, drawn from `[a-zA-Z0-9._-]`. -/
def validate_username (username : String) : Bool :=
  ¬ username.isEmpty && username.length ≤ 50 &&
    username.toList.all (fun c => c.isAlphanum || c = '.' || c = '_' || c = '-')

/-- Outcome of one connection attempt: closed with a close code and reason
before acceptance, or accepted and registered. -/
inductive ConnectOutcome where
  | closed (code : ℕ) (reason : String)
  | accepted
deriving DecidableEq, Repr

/-- The pre-accept gauntlet of `websocket_endpoint`: token present, token valid
and matching the path username, username format, then the capacity check
against `MAX_CONNECTIONS`; only then `accept()` and registration. `hasToken`
and `tokenValid` summarise the outcome of the external token verification. -/
def ws_connect (hasToken tokenValid : Bool) (username : String) (c : ℕ)
    (maxConns : ℕ) (reg : Registry) : ConnectOutcome × Registry :=
  if ¬ hasToken then (.closed 1008 "Authentication required", reg)
  else if ¬ tokenValid then (.closed 1008 "Invalid authentication", reg)
  else if ¬ validate_username username then (.closed 1008 "Invalid username", reg)
  else if maxConns ≤ reg.conns.length then (.closed 1013 "Server at capacity", reg)
  else (.accepted, addConn reg c username)

/-- Registry-level events: a connection attempt or a disconnect. -/
inductive WsOp where
  | attempt (hasToken tokenValid : Bool) (u : String) (c : ℕ)
  | disconnect (c : ℕ)
deriving DecidableEq, Repr

/-- Apply one registry event. -/
def wsStep (maxConns : ℕ) (reg : Registry) (op : WsOp) : Registry :=
  match op with
  | .attempt h t u c => (ws_connect h t u c maxConns reg).2
  | .disconnect c => removeConn reg c

/-- Replay a sequence of registry events from the empty registry. -/
def applyWsOps (maxConns : ℕ) (ops : List WsOp) : Registry :=
  ops.foldl (wsStep maxConns) { conns := [], names := [] }

/-! ## `POST /api/admin/kick` (`admin_kick` in `app/main.py`) -/

/-- Response of the kick endpoint. -/
inductive KickResult where
  | badRequest
  | notFound
  | ok (connectionsClosed : ℕ) (userDeleted : Bool)
deriving DecidableEq, Repr

/-- Close and unregister every live connection bound to `name`; returns the
count closed. -/
def removeConnsNamed (reg : Registry) (name : String) : Registry × ℕ :=
  let kicked := (reg.names.filter (fun p => p.2 = name)).map (fun p => p.1)
  (kicked.foldl removeConn reg, kicked.length)

/-- `delete_user` plus the cascade settings on the `User` relationships:
the user row, their sessions, their messages and the audit rows they authored
are deleted; audit rows targeting them survive with the target reference
nulled (that relationship has no delete cascade). -/
def cascadeDeleteUser (db : Db) (uid : ℕ) : Db :=
  { db with
    users := db.users.filter (fun p => p.1 ≠ uid)
    sessions := db.sessions.filter (fun p => p.1 ≠ uid)
    messages := db.messages.filter (fun pm => pm.userId ≠ uid)
    adminActions :=
      (db.adminActions.filter (fun a => a.adminUserId ≠ uid)).map
        (fun a => if a.targetUserId = some uid then { a with targetUserId := none } else a) }

/-- Embedding of `admin_kick`: close and unregister the target's live
connections, get-or-create the admin's user row, then look the target up in
the store — absent targets get a 404 with no audit entry written; present
targets get one audit entry, then the durable record is deleted with its
cascades. -/
def admin_kick (adminName : String) (targetName : Option String) (reg : Registry)
    (db : Db) : KickResult × Registry × Db :=
  match targetName with
  | none => (.badRequest, reg, db)
  | some target =>
      let kicked := removeConnsNamed reg target
      let reg1 := kicked.1
      let adminDb := getOrCreateUser db adminName
      let db1 := adminDb.2
      match lookupUser db1.users target with
      | none => (.notFound, reg1, db1)
      | some tid =>
          let db2 := { db1 with
            adminActions := db1.adminActions ++
              [{ adminUserId := adminDb.1, action := "kick", targetUserId := some tid
                 details := "Kicked and deleted user" }] }
          (.ok kicked.2 true, reg1, cascadeDeleteUser db2 tid)

/-! ## `PATCH /api/mod/threshold` (`set_toxicity_threshold` in `app/main.py`) -/

/-- Response of the threshold endpoint: 200 echoing the submitted value, or a
400 validation error. -/
inductive ThResponse where
  | ok (echo : Json)
  | err400 (detail : String)
deriving DecidableEq, Repr

/-- Python's `isinstance(threshold, int | float)`: JSON numbers qualify, and so
do JSON booleans, because `bool` is a subclass of `int` in Python. -/
def pyIsNumber : Json → Bool
  | .jnum _ => true
  | .jbool _ => true
  | _ => false

/-- Python numeric value of a number-like JSON value (`float(True) = 1.0`). -/
def pyToRat : Json → ℚ
  | .jnum q => q
  | .jbool b => if b then 1 else 0
  | _ => 0

/-- Embedding of the `PATCH /api/mod/threshold` handler. `thresholdValue` is
`data.get("threshold")` — `none` when the key is absent or its value is JSON
null. Missing values and non-`isinstance(int|float)` values get a 400; values
outside [0, 1] get a 400; otherwise the setting is persisted and an audit row
is appended. -/
def set_toxicity_threshold_endpoint (adminName : String) (thresholdValue : Option Json)
    (db : Db) : ThResponse × Db :=
  match thresholdValue with
  | none => (.err400 "Threshold value required", db)
  | some v =>
      if ¬ pyIsNumber v then (.err400 "Threshold must be a number", db)
      else
        let q := pyToRat v
        if ¬ (0 ≤ q ∧ q ≤ 1) then
          (.err400 "Threshold must be between 0.0 and 1.0", db)
        else
          match db_set_toxicity_threshold db q with
          | .error e => (.err400 e, db)
          | .ok db1 =>
              let adminDb := getOrCreateUser db1 adminName
              let db2 := { adminDb.2 with
                adminActions := adminDb.2.adminActions ++
                  [{ adminUserId := adminDb.1, action := "set_threshold"
                     targetUserId := none, details := "Set toxicity threshold" }] }
              (.ok v, db2)

/-! ## Gift producer (`app/events.py`) -/

/-- The Python collection handed to `broadcast_gift`. The module annotates it
as `dict[str, WebSocket]`, but `app/main.py` stores connections in the
module-level `connected: set[WebSocket]` and passes that set to
`events.create_gift_task(connected)` and `events.broadcast_gift(connected, ...)`. -/
inductive PyConns where
  | pset (conns : List ℕ)
  | pdict (entries : List (String × ℕ))
deriving DecidableEq, Repr

/-- Attribute access `connections.items()`: dicts have `.items`; a set does
not, so the call raises `AttributeError`. -/
def PyConns.items : PyConns → Except String (List (String × ℕ))
  | .pset _ => .error "AttributeError: set object has no attribute items"
  | .pdict entries => .ok entries

/-- `events.broadcast_gift(connections, gift_data)`: iterate `.items()`,
attempt each send, then delete the entries whose send failed. Returns the
recipients that actually received the event and the cleaned-up connections,
or propagates the exception `.items()` raised. -/
def broadcast_gift (conns : PyConns) (sendOk : ℕ → Bool) :
    Except String (List (String × ℕ) × PyConns) :=
  match conns.items with
  | .error e => .error e
  | .ok entries =>
      let delivered := entries.filter (fun p => sendOk p.2)
      let failed := (entries.filter (fun p => ¬ sendOk p.2)).map (fun p => p.1)
      .ok (delivered, .pdict (entries.filter (fun p => p.1 ∉ failed)))

/-- Outcome of one firing of the gift producer loop body. -/
structure GiftTickResult where
  metrics : MetricsTracker
  delivered : List (String × ℕ)
  conns : PyConns
  giftId : ℕ
  amount : ℕ
  errorCaught : Bool
deriving DecidableEq, Repr

/-- One iteration of `events.gift_producer` after the sleep: draw
`gift_id`/`amount`, increment the gift counter, then broadcast; any exception
from the broadcast is caught by the loop's `except Exception` handler (the loop
backs off and continues), so a failed broadcast delivers to nobody while the
counter increment has already happened. -/
def gift_producer_tick (conns : PyConns) (sendOk : ℕ → Bool) (giftId amount : ℕ)
    (m : MetricsTracker) : GiftTickResult :=
  let m1 := m.increment_gift_count
  match broadcast_gift conns sendOk with
  | .error _ =>
      { metrics := m1, delivered := [], conns := conns, giftId := giftId
        amount := amount, errorCaught := true }
  | .ok res =>
      { metrics := m1, delivered := res.1, conns := res.2, giftId := giftId
        amount := amount, errorCaught := false }

/-- The wiring in `app/main.py`: the gift task is created over the module-level
`connected` **set** (`app.state.gift_task = await events.create_gift_task(connected)`). -/
def productionGiftConns (reg : Registry) : PyConns :=
  .pset reg.conns

end SafeStream

namespace SafeStream

/-! ## Claim theorems -/

/-- **C1** (threshold unification): for every message handled by the pipeline
with the model producing score `s` and the fetched threshold `t`, the message
is flagged toxic exactly when `s ≥ t` and the blocked branch is taken exactly
when it is flagged; and over *all* inputs (stub mode, mute state, validation
failures included) the blocked branch is taken iff the toxic flag is true —
the two conditions never differ. -/
theorem threshold_unification_c1 :
    (∀ (s t envT : ℚ) (msg username : String) (sender : ℕ) (now : ℤ)
        (sendOk : ℕ → Bool) (reg : Registry) (m : MetricsTracker)
        (users : List (ℕ × String)) (nextU : ℕ) (sessions : List (ℕ × Bool))
        (msgs : List PersistedMsg) (nextM : ℕ) (actions : List AdminActionRow),
        let r := handleMessage false envT (some s) sendOk username sender now reg
          { users := users, nextUserId := nextU, sessions := sessions
            messages := msgs, nextMsgId := nextM, adminActions := actions
            muteSettings := [], threshold := some (TVal.num t) } m
          { typeField := some (Json.jstr "chat")
            messageField := some (Json.jstr msg) }
        r.toxicFlag = some (decide (s ≥ t)) ∧
        (r.decision = some Decision.blockedD ↔ s ≥ t)) ∧
    (∀ (disabled : Bool) (envThreshold : ℚ) (modelScore : Option ℚ)
        (sendOk : ℕ → Bool) (username : String) (sender : ℕ) (now : ℤ)
        (reg : Registry) (db : Db) (m : MetricsTracker) (inbound : RawInbound),
        (handleMessage disabled envThreshold modelScore sendOk username sender now
          reg db m inbound).decision = some Decision.blockedD ↔
        (handleMessage disabled envThreshold modelScore sendOk username sender now
          reg db m inbound).toxicFlag = some true) := by
  constructor
  · intro s t envT msg username sender now sendOk reg m users nextU sessions msgs
      nextM actions
    cases hL : lookupUser users username <;> by_cases hst : s ≥ t <;>
      simp [handleMessage, parseChatMessageIn, typeTagOk, getOrCreateUser, hL,
        is_user_muted, get_user_mute, getMuteSetting, get_toxicity_threshold,
        predict, hst]
  · intro disabled envThreshold modelScore sendOk username sender now reg db m
      inbound
    unfold handleMessage
    cases hP : parseChatMessageIn inbound with
    | none => simp
    | some c =>
        dsimp only
        split
        · simp
        · split <;> simp_all

/-- **C2** (code evaluated at the failing input): the outbound chat message
built in the blocked path of `websocket_endpoint` — the constructor is called
with `blocked=True` — serializes without any `blocked` key, because
`schemas.ChatMessageOut` declares no such field and pydantic drops the unknown
keyword argument. The serialized keys are exactly the seven declared fields. -/
theorem chat_out_serialization_lacks_blocked_c2 :
    "blocked" ∉ (serializeChatMessageOut
        (mkChatMessageOut 1 "carol" "m" true (95 / 100) 0 true)).map Prod.fst ∧
    (serializeChatMessageOut
        (mkChatMessageOut 1 "carol" "m" true (95 / 100) 0 true)).map Prod.fst =
      ["type", "id", "user", "message", "toxic", "score", "ts"] := by
  constructor
  · decide
  · rfl

/-- **C3** (code evaluated at the failing input): with one live connection in
the module-level `connected` set and the random draws fixed to
`gift_id = 123`, `amount = 3`, one firing of the gift producer increments
`gift_count` by 1 but delivers the event to nobody: `broadcast_gift` calls
`.items()` on the set, the `AttributeError` is caught by the loop's blanket
handler, and the fan-out never happens. Handed a dict (as the module's type
annotation and the repository's own tests assume), the same firing delivers to
every connection. -/
theorem gift_fire_delivers_nothing_c3 :
    (gift_producer_tick (productionGiftConns
        { conns := [7], names := [(7, "alice")] })
      (fun _ => true) 123 3 MetricsTracker.init).delivered = [] ∧
    (gift_producer_tick (productionGiftConns
        { conns := [7], names := [(7, "alice")] })
      (fun _ => true) 123 3 MetricsTracker.init).errorCaught = true ∧
    (gift_producer_tick (productionGiftConns
        { conns := [7], names := [(7, "alice")] })
      (fun _ => true) 123 3 MetricsTracker.init).metrics.gift_count = 1 ∧
    (gift_producer_tick (PyConns.pdict [("alice", 7)]) (fun _ => true) 123 3
        MetricsTracker.init).delivered = [("alice", 7)] := by
  decide

/-! ### Metrics (C10) -/

/-- **C10**: over every operation sequence on the metrics tracker, the toxic
count never exceeds the chat count, and the toxic percentage is 0 when no chat
message has been counted and always lies in [0, 100]. -/
theorem metrics_invariant_and_percentage_bounds :
    ∀ ops : List MOp,
      (applyMOps ops).toxic_message_total ≤ (applyMOps ops).chat_message_total ∧
      ((applyMOps ops).chat_message_total = 0 →
        (applyMOps ops).get_toxic_percentage = 0) ∧
      0 ≤ (applyMOps ops).get_toxic_percentage ∧
      (applyMOps ops).get_toxic_percentage ≤ 100 := by
  have key : ∀ (ops : List MOp) (m : MetricsTracker),
      m.toxic_message_total ≤ m.chat_message_total →
      (ops.foldl mStep m).toxic_message_total ≤
        (ops.foldl mStep m).chat_message_total := by
    intro ops
    induction ops with
    | nil => intro m hm; exact hm
    | cons op rest ih =>
        intro m hm
        apply ih
        cases op with
        | incChat b =>
            cases b <;>
              simp [mStep, MetricsTracker.increment_chat_message] <;> omega
        | incGift => simpa [mStep, MetricsTracker.increment_gift_count] using hm
        | resetOp => simp [mStep, MetricsTracker.reset]
  intro ops
  have hle : (applyMOps ops).toxic_message_total ≤
      (applyMOps ops).chat_message_total := by
    apply key
    simp [MetricsTracker.init]
  refine ⟨hle, ?_, ?_, ?_⟩
  · intro h0
    simp [MetricsTracker.get_toxic_percentage, h0]
  · unfold MetricsTracker.get_toxic_percentage
    split
    · exact le_refl 0
    · positivity
  · unfold MetricsTracker.get_toxic_percentage
    split
    · norm_num
    · rename_i hne
      have hpos : (0 : ℚ) < ((applyMOps ops).chat_message_total : ℚ) := by
        exact_mod_cast Nat.pos_of_ne_zero hne
      have hratio : ((applyMOps ops).toxic_message_total : ℚ) /
          ((applyMOps ops).chat_message_total : ℚ) ≤ 1 := by
        rw [div_le_one hpos]
        exact_mod_cast hle
      nlinarith

/-- Witness for C10: the tracker after a lone gift increment has zero chat
messages, so the toxic percentage evaluates to 0. -/
theorem metrics_invariant_witness :
    (applyMOps [MOp.incGift]).get_toxic_percentage = 0 :=
  (metrics_invariant_and_percentage_bounds [MOp.incGift]).2.1 (by decide)

/-! ### Mute handling (C4, C7) -/

/-- **C4** (mute suppresses everything): a message from an identity whose
stored mute expiry lies in the future is not persisted (the store is left
untouched), not scored, not broadcast; the sender gets exactly one muted
notice carrying the stored expiry, and the chat/toxic counters do not move. -/
theorem mute_suppresses_c4 :
    ∀ (disabled : Bool) (envThreshold : ℚ) (modelScore : Option ℚ)
      (sendOk : ℕ → Bool) (username : String) (sender : ℕ) (now expiry : ℤ)
      (reg : Registry) (db : Db) (m : MetricsTracker) (inbound : RawInbound)
      (uid : ℕ) (chatIn : ChatIn),
      parseChatMessageIn inbound = some chatIn →
      lookupUser db.users username = some uid →
      getMuteSetting db uid = some (MuteVal.valid expiry) →
      now < expiry →
      sendOk sender = true →
      let r := handleMessage disabled envThreshold modelScore sendOk username
        sender now reg db m inbound
      r.sends = [(sender, OutEvent.mutedNotice (some expiry))] ∧
      r.db = db ∧ r.metrics = m ∧ r.registry = reg ∧ r.decision = none ∧
      r.scorerCalled = false ∧ r.closedConn = false := by
  intro disabled envThreshold modelScore sendOk username sender now expiry reg
    db m inbound uid chatIn hP hL hM hnow hS
  simp [handleMessage, hP, getOrCreateUser, hL, is_user_muted, get_user_mute,
    hM, hnow, hS]

/-- Witness for C4: bob is muted until 300 and sends "hi" at time 60; the
handler emits exactly the muted notice and changes nothing else. -/
theorem mute_suppresses_c4_witness :
    let db : Db :=
      { users := [(1, "bob")], nextUserId := 2, sessions := [], messages := []
        nextMsgId := 0, adminActions := []
        muteSettings := [(1, MuteVal.valid 300)], threshold := none }
    let r := handleMessage false (6 / 10) (some (9 / 10)) (fun _ => true) "bob"
      5 60 { conns := [5], names := [(5, "bob")] } db MetricsTracker.init
      { typeField := some (Json.jstr "chat")
        messageField := some (Json.jstr "hi") }
    r.sends = [(5, OutEvent.mutedNotice (some 300))] ∧
    r.db = db ∧ r.metrics = MetricsTracker.init ∧
    r.registry = { conns := [5], names := [(5, "bob")] } ∧ r.decision = none ∧
    r.scorerCalled = false ∧ r.closedConn = false :=
  mute_suppresses_c4 false (6 / 10) (some (9 / 10)) (fun _ => true) "bob" 5 60
    300 { conns := [5], names := [(5, "bob")] }
    { users := [(1, "bob")], nextUserId := 2, sessions := [], messages := []
      nextMsgId := 0, adminActions := []
      muteSettings := [(1, MuteVal.valid 300)], threshold := none }
    MetricsTracker.init
    { typeField := some (Json.jstr "chat"), messageField := some (Json.jstr "hi") }
    1 { message := "hi" } (by decide) (by decide) (by decide) (by decide) rfl

/-- Helper: updating an association list in place overwrites the looked-up
value when the key was present. -/
theorem assoc_find?_map_update {β : Type} (uid : ℕ) (v : β) :
    ∀ l : List (ℕ × β), (l.find? (fun p => p.1 = uid)).isSome →
      (l.map (fun p => if p.1 = uid then (uid, v) else p)).find?
        (fun p => p.1 = uid) = some (uid, v) := by
  intro l
  induction l with
  | nil => intro h; simp at h
  | cons a rest ih =>
      intro h
      by_cases ha : a.1 = uid
      · simp only [List.map_cons, if_pos ha]
        exact List.find?_cons_of_pos _ (by simp)
      · simp only [List.map_cons, if_neg ha]
        rw [List.find?_cons_of_neg _ (by simp [ha])]
        apply ih
        rw [List.find?_cons_of_neg _ (by simp [ha])] at h
        exact h

/-- Helper: appending a binding for a key absent from an association list
makes lookup of that key find the appended binding. -/
theorem assoc_find?_append_none {β : Type} (uid : ℕ) (v : β) :
    ∀ l : List (ℕ × β), l.find? (fun p => p.1 = uid) = none →
      (l ++ [(uid, v)]).find? (fun p => p.1 = uid) = some (uid, v) := by
  intro l
  induction l with
  | nil => intro _; exact List.find?_cons_of_pos _ (by simp)
  | cons a rest ih =>
      intro h
      by_cases ha : a.1 = uid
      · rw [List.find?_cons_of_pos _ (by simp [ha])] at h
        exact Option.noConfusion h
      · rw [List.cons_append, List.find?_cons_of_neg _ (by simp [ha])]
        apply ih
        rw [List.find?_cons_of_neg _ (by simp [ha])] at h
        exact h

/-- Helper: `set_setting` on a mute key makes the subsequent read see the new
value, whether the key previously existed or not. -/
theorem getMuteSetting_set_self (db : Db) (uid : ℕ) (v : MuteVal) :
    getMuteSetting (setMuteSetting db uid v) uid = some v := by
  unfold getMuteSetting setMuteSetting
  by_cases h : (db.muteSettings.find? (fun p => p.1 = uid)).isSome
  · rw [if_pos h]
    simp [assoc_find?_map_update uid v db.muteSettings h]
  · rw [if_neg h]
    have h0 : db.muteSettings.find? (fun p => p.1 = uid) = none :=
      Option.not_isSome_iff_eq_none.mp h
    simp [assoc_find?_append_none uid v db.muteSettings h0]

/-- **C7** (expired mute self-heals): once `now` is at or after the stored
expiry, the mute query reports "not muted" — no sweep needed — and clears the
stale record as a side effect. -/
theorem expired_mute_self_heals_c7 :
    ∀ (db : Db) (uid : ℕ) (now expiry : ℤ),
      getMuteSetting db uid = some (MuteVal.valid expiry) →
      expiry ≤ now →
      (is_user_muted db uid now).1 = false ∧
      getMuteSetting (is_user_muted db uid now).2 uid = some MuteVal.empty := by
  intro db uid now expiry hM hle
  have hnot : ¬ now < expiry := not_lt.mpr hle
  unfold is_user_muted get_user_mute
  rw [hM]
  simp [hnot, getMuteSetting_set_self]

/-- Witness for C7: a mute that expired at time 100 queried exactly at time
100 reports not muted and is cleared. -/
theorem expired_mute_self_heals_c7_witness :
    (is_user_muted
      { users := [(1, "bob")], nextUserId := 2, sessions := [], messages := []
        nextMsgId := 0, adminActions := []
        muteSettings := [(1, MuteVal.valid 100)], threshold := none } 1 100).1
      = false ∧
    getMuteSetting
      (is_user_muted
        { users := [(1, "bob")], nextUserId := 2, sessions := [], messages := []
          nextMsgId := 0, adminActions := []
          muteSettings := [(1, MuteVal.valid 100)], threshold := none } 1 100).2
      1 = some MuteVal.empty :=
  expired_mute_self_heals_c7
    { users := [(1, "bob")], nextUserId := 2, sessions := [], messages := []
      nextMsgId := 0, adminActions := []
      muteSettings := [(1, MuteVal.valid 100)], threshold := none }
    1 100 100 (by decide) (by decide)

/-! ### Message-shape validation (C5) -/

/-- **C5 counterexample**: an inbound message with type `"chat"` and an
*empty* text field — which the claim says must be answered with a structured
error, not persisted, not scored, not broadcast — is in fact accepted by
validation (`ChatMessageIn.message` has no non-empty constraint), scored,
persisted, counted, and broadcast to the registry. -/
theorem empty_text_processed_c5_counterexample :
    let r := handleMessage false (mkRat 6 10) (some 0) (fun _ => true) "alice" 7
      100 { conns := [7], names := [(7, "alice")] }
      { users := [], nextUserId := 1, sessions := [], messages := []
        nextMsgId := 5, adminActions := [], muteSettings := []
        threshold := some (TVal.num (mkRat 6 10)) }
      MetricsTracker.init
      { typeField := some (Json.jstr "chat"), messageField := some (Json.jstr "") }
    r.decision = some Decision.broadcastD ∧
    r.sends = [(7, OutEvent.chatOut (serializeChatMessageOut
      (mkChatMessageOut 5 "alice" "" false 0 100 false)))] ∧
    r.db.messages.length = 1 ∧ r.metrics.chat_message_total = 1 ∧
    r.scorerCalled = true ∧ r.closedConn = false := by
  decide

/-- **C5 as amended**: an inbound message that fails `ChatMessageIn`
validation — a present type tag other than `"chat"`, or a missing/non-string
text field (the empty string is *accepted*, and a missing type tag defaults to
`"chat"`) — is answered with a structured error to the sender only, is not
persisted, not scored, not broadcast, and a successful error send leaves the
connection open. -/
theorem invalid_shape_rejected_c5 :
    ∀ (disabled : Bool) (envThreshold : ℚ) (modelScore : Option ℚ)
      (sendOk : ℕ → Bool) (username : String) (sender : ℕ) (now : ℤ)
      (reg : Registry) (db : Db) (m : MetricsTracker) (inbound : RawInbound),
      parseChatMessageIn inbound = none →
      sendOk sender = true →
      let r := handleMessage disabled envThreshold modelScore sendOk username
        sender now reg db m inbound
      r.sends = [(sender, OutEvent.errorEvt "Invalid message format"
        "validation error")] ∧
      r.db = db ∧ r.metrics = m ∧ r.registry = reg ∧ r.decision = none ∧
      r.scorerCalled = false ∧ r.closedConn = false := by
  intro disabled envThreshold modelScore sendOk username sender now reg db m
    inbound hP hS
  simp [handleMessage, hP, hS]

/-- Witness for C5 (amended): a message with the unrecognized type tag
`"gift"` is answered with the structured error only. -/
theorem invalid_shape_rejected_c5_witness :
    let db : Db :=
      { users := [], nextUserId := 1, sessions := [], messages := []
        nextMsgId := 0, adminActions := [], muteSettings := [], threshold := none }
    let r := handleMessage false (6 / 10) (some 0) (fun _ => true) "alice" 7 100
      { conns := [7], names := [(7, "alice")] } db MetricsTracker.init
      { typeField := some (Json.jstr "gift"), messageField := some (Json.jstr "x") }
    r.sends = [(7, OutEvent.errorEvt "Invalid message format"
      "validation error")] ∧
    r.db = db ∧ r.metrics = MetricsTracker.init ∧
    r.registry = { conns := [7], names := [(7, "alice")] } ∧ r.decision = none ∧
    r.scorerCalled = false ∧ r.closedConn = false :=
  invalid_shape_rejected_c5 false (6 / 10) (some 0) (fun _ => true) "alice" 7
    100 { conns := [7], names := [(7, "alice")] }
    { users := [], nextUserId := 1, sessions := [], messages := []
      nextMsgId := 0, adminActions := [], muteSettings := [], threshold := none }
    MetricsTracker.init
    { typeField := some (Json.jstr "gift"), messageField := some (Json.jstr "x") }
    (by decide) rfl

/-! ### Threshold endpoint (C6) -/

/-- Helper: lazily creating a user touches only the user table and the id
counter; every other part of the store is preserved. -/
theorem getOrCreateUser_preserves (db : Db) (n : String) :
    (getOrCreateUser db n).2.sessions = db.sessions ∧
    (getOrCreateUser db n).2.messages = db.messages ∧
    (getOrCreateUser db n).2.nextMsgId = db.nextMsgId ∧
    (getOrCreateUser db n).2.adminActions = db.adminActions ∧
    (getOrCreateUser db n).2.muteSettings = db.muteSettings ∧
    (getOrCreateUser db n).2.threshold = db.threshold := by
  unfold getOrCreateUser
  cases h : lookupUser db.users n <;> simp [h]

/-- Helper: singled-out threshold preservation, in simp-lemma form. -/
theorem getOrCreateUser_threshold (db : Db) (n : String) :
    (getOrCreateUser db n).2.threshold = db.threshold :=
  (getOrCreateUser_preserves db n).2.2.2.2.2

/-- **C6 counterexample**: the JSON boolean `true` is not a number, yet
`PATCH /api/mod/threshold` accepts it — Python's `isinstance(threshold,
int | float)` is true for `bool` (a subclass of `int`) — returns 200 echoing
`true`, and overwrites the stored threshold (0.5 here) with 1.0, contradicting
"every non-numeric v returns a validation error and leaves the stored
threshold unchanged". -/
theorem bool_threshold_accepted_c6_counterexample :
    (set_toxicity_threshold_endpoint "root" (some (Json.jbool true))
      { users := [(1, "root")], nextUserId := 2, sessions := [], messages := []
        nextMsgId := 0, adminActions := [], muteSettings := []
        threshold := some (TVal.num (mkRat 1 2)) }).1 =
      ThResponse.ok (Json.jbool true) ∧
    (set_toxicity_threshold_endpoint "root" (some (Json.jbool true))
      { users := [(1, "root")], nextUserId := 2, sessions := [], messages := []
        nextMsgId := 0, adminActions := [], muteSettings := []
        threshold := some (TVal.num (mkRat 1 2)) }).2.threshold =
      some (TVal.num 1) := by
  decide

/-- **C6 as amended**: `SetThreshold(v)` succeeds iff `v` is a JSON number in
[0, 1] — or a JSON boolean, which Python's `bool ⊂ int` lets through as
0.0/1.0; every other value (missing, null, string, array, out-of-range
number) gets a 400 validation error and leaves the whole store, in particular
the stored threshold the moderation gate reads, unchanged; on success the
stored threshold becomes the submitted value. -/
theorem threshold_bounds_c6 :
    ∀ (adminName : String) (v : Option Json) (db : Db),
      ((∃ j, (set_toxicity_threshold_endpoint adminName v db).1 =
          ThResponse.ok j) ↔
        (∃ q, v = some (Json.jnum q) ∧ 0 ≤ q ∧ q ≤ 1) ∨
        (∃ b, v = some (Json.jbool b))) ∧
      (∀ d, (set_toxicity_threshold_endpoint adminName v db).1 =
          ThResponse.err400 d →
        (set_toxicity_threshold_endpoint adminName v db).2 = db) ∧
      ((∃ j, (set_toxicity_threshold_endpoint adminName v db).1 =
          ThResponse.ok j) →
        (set_toxicity_threshold_endpoint adminName v db).2.threshold =
          some (TVal.num (pyToRat (v.getD Json.jnull)))) := by
  intro adminName v db
  cases v with
  | none => simp [set_toxicity_threshold_endpoint]
  | some j =>
      cases j with
      | jnull => simp [set_toxicity_threshold_endpoint, pyIsNumber]
      | jarr => simp [set_toxicity_threshold_endpoint, pyIsNumber]
      | jstr s => simp [set_toxicity_threshold_endpoint, pyIsNumber]
      | jbool b =>
          have h01 : (0 : ℚ) ≤ 1 ∧ (1 : ℚ) ≤ 1 := by norm_num
          have h00 : (0 : ℚ) ≤ 0 ∧ (0 : ℚ) ≤ 1 := by norm_num
          cases b with
          | true =>
              simp [set_toxicity_threshold_endpoint, pyIsNumber, pyToRat,
                db_set_toxicity_threshold, h01.1, h01.2,
                getOrCreateUser_threshold]
          | false =>
              simp [set_toxicity_threshold_endpoint, pyIsNumber, pyToRat,
                db_set_toxicity_threshold, h00.1, h00.2,
                getOrCreateUser_threshold]
      | jnum q =>
          by_cases hq : 0 ≤ q ∧ q ≤ 1
          · simp [set_toxicity_threshold_endpoint, pyIsNumber, pyToRat,
              db_set_toxicity_threshold, hq, hq.1, hq.2,
              getOrCreateUser_threshold]
          · simp [set_toxicity_threshold_endpoint, pyIsNumber, pyToRat,
              db_set_toxicity_threshold, hq]

/-- Witness for C6 (amended): a string threshold is rejected and the store is
left untouched. -/
theorem threshold_bounds_c6_witness :
    (set_toxicity_threshold_endpoint "root" (some (Json.jstr "abc"))
      { users := [], nextUserId := 1, sessions := [], messages := []
        nextMsgId := 0, adminActions := [], muteSettings := []
        threshold := none }).2 =
    { users := [], nextUserId := 1, sessions := [], messages := []
      nextMsgId := 0, adminActions := [], muteSettings := []
      threshold := none } :=
  (threshold_bounds_c6 "root" (some (Json.jstr "abc"))
    { users := [], nextUserId := 1, sessions := [], messages := []
      nextMsgId := 0, adminActions := [], muteSettings := []
      threshold := none }).2.1 "Threshold must be a number" rfl

/-! ### Kick (C8) -/

/-- Helper: appending a user with a different name does not change a
username lookup. -/
theorem lookupUser_append_ne (users : List (ℕ × String)) (x : ℕ)
    (nm target : String) (h : nm ≠ target) :
    lookupUser (users ++ [(x, nm)]) target = lookupUser users target := by
  unfold lookupUser
  induction users with
  | nil => simp [List.find?_cons, h]
  | cons a rest ih =>
      by_cases ha : a.2 = target
      · rw [List.cons_append, List.find?_cons_of_pos _ (by simp [ha]),
          List.find?_cons_of_pos _ (by simp [ha])]
      · rw [List.cons_append, List.find?_cons_of_neg _ (by simp [ha]),
          List.find?_cons_of_neg _ (by simp [ha])]
        exact ih

/-- Helper: a username lookup fails exactly when no row carries the name. -/
theorem lookupUser_eq_none_iff (users : List (ℕ × String)) (n : String) :
    lookupUser users n = none ↔ ∀ p ∈ users, p.2 ≠ n := by
  unfold lookupUser
  simp [List.find?_eq_none]

/-- Helper: with unique usernames, deleting the row a successful lookup
returned makes the next lookup of that name fail. -/
theorem lookupUser_filter_out (users : List (ℕ × String)) (target : String)
    (tid : ℕ) :
    (users.map Prod.snd).Nodup → lookupUser users target = some tid →
    lookupUser (users.filter (fun p => p.1 ≠ tid)) target = none := by
  induction users with
  | nil => intro _ h; simp [lookupUser] at h
  | cons a rest ih =>
      intro hnd hl
      rw [List.map_cons, List.nodup_cons] at hnd
      by_cases ha : a.2 = target
      · have hhead : lookupUser (a :: rest) target = some a.1 := by
          unfold lookupUser
          rw [List.find?_cons_of_pos _ (by simp [ha])]
          rfl
        rw [hhead] at hl
        have htid : a.1 = tid := Option.some.inj hl
        rw [List.filter_cons, if_neg (by simp [htid])]
        rw [lookupUser_eq_none_iff]
        intro p hp
        have hpr : p ∈ rest := List.mem_of_mem_filter hp
        have : p.2 ∈ rest.map Prod.snd := List.mem_map_of_mem _ hpr
        intro hpt
        exact hnd.1 (by rw [ha, ← hpt]; exact this)
      · have hl' : lookupUser rest target = some tid := by
          unfold lookupUser at hl ⊢
          rw [List.find?_cons_of_neg _ (by simp [ha])] at hl
          exact hl
        by_cases hat : a.1 = tid
        · rw [List.filter_cons, if_neg (by simp [hat])]
          exact ih hnd.2 hl'
        · rw [List.filter_cons, if_pos (by simp [hat])]
          unfold lookupUser
          rw [List.find?_cons_of_neg _ (by simp [ha])]
          have := ih hnd.2 hl'
          unfold lookupUser at this
          exact this

/-- Helper: folding `removeConn` over a list of connection ids filters the
username map down to the ids outside the list. -/
theorem foldl_removeConn_names (l : List ℕ) :
    ∀ reg : Registry, (l.foldl removeConn reg).names =
      reg.names.filter (fun p => decide (p.1 ∉ l)) := by
  induction l with
  | nil => intro reg; simp
  | cons c cs ih =>
      intro reg
      rw [List.foldl_cons, ih]
      show (removeConn reg c).names.filter _ = _
      unfold removeConn
      rw [List.filter_filter]
      apply List.filter_congr
      intro p _
      by_cases h1 : p.1 = c <;> by_cases h2 : p.1 ∈ cs <;> simp [h1, h2]

/-- Helper: after `removeConnsNamed reg target`, no registry entry carries the
target's name. -/
theorem removeConnsNamed_clears (reg : Registry) (target : String) :
    (removeConnsNamed reg target).1.names.filter (fun p => p.2 = target)
      = [] := by
  unfold removeConnsNamed
  rw [foldl_removeConn_names]
  rw [List.filter_filter]
  rw [List.filter_eq_nil_iff]
  intro p hp
  by_cases ht : p.2 = target
  · have hmem : p.1 ∈ (reg.names.filter (fun q => q.2 = target)).map Prod.fst :=
      List.mem_map_of_mem _ (List.mem_filter.mpr ⟨hp, by simp [ht]⟩)
    simp [ht, hmem]
  · simp [ht]

/-- Helper: a second kick of the same (now record-less) target reports
not-found and appends no audit entry. -/
theorem admin_kick_notFound (adminName target : String) (reg : Registry)
    (db : Db) :
    lookupUser db.users target = none → adminName ≠ target →
    (admin_kick adminName (some target) reg db).1 = KickResult.notFound ∧
    (admin_kick adminName (some target) reg db).2.2.adminActions =
      db.adminActions := by
  intro hnone hne
  cases hA : lookupUser db.users adminName with
  | some aid => simp [admin_kick, getOrCreateUser, hA, hnone]
  | none =>
      have happ : lookupUser (db.users ++ [(db.nextUserId, adminName)]) target
          = none := by
        rw [lookupUser_append_ne db.users db.nextUserId adminName target hne]
        exact hnone
      simp [admin_kick, getOrCreateUser, hA, happ]

/-- **C8** (kick is effective and idempotent): when the target has a durable
record (and has not authenticated as themself as the acting admin), a kick
succeeds reporting the record deleted, leaves no registry entry under the
target's name, removes the durable user row, their sessions and their
messages; and an immediately following kick of the same target reports
not-found while appending no audit entry for the failed action. -/
theorem kick_effective_and_idempotent_c8 :
    ∀ (adminName target : String) (reg : Registry) (db : Db) (tid : ℕ),
      adminName ≠ target →
      lookupUser db.users target = some tid →
      (db.users.map Prod.snd).Nodup →
      let r1 := admin_kick adminName (some target) reg db
      (∃ k, r1.1 = KickResult.ok k true) ∧
      r1.2.1.names.filter (fun p => p.2 = target) = [] ∧
      lookupUser r1.2.2.users target = none ∧
      r1.2.2.sessions.filter (fun p => p.1 = tid) = [] ∧
      r1.2.2.messages.filter (fun pm => pm.userId = tid) = [] ∧
      (admin_kick adminName (some target) r1.2.1 r1.2.2).1 =
        KickResult.notFound ∧
      (admin_kick adminName (some target) r1.2.1 r1.2.2).2.2.adminActions =
        r1.2.2.adminActions := by
  intro adminName target reg db tid hne hl hnd
  have hfilter_sessions : ∀ l : List (ℕ × Bool),
      (l.filter (fun p => p.1 ≠ tid)).filter (fun p => p.1 = tid) = [] := by
    intro l
    rw [List.filter_filter, List.filter_eq_nil_iff]
    intro p _
    by_cases h : p.1 = tid <;> simp [h]
  have hfilter_msgs : ∀ l : List PersistedMsg,
      (l.filter (fun pm => pm.userId ≠ tid)).filter (fun pm => pm.userId = tid)
        = [] := by
    intro l
    rw [List.filter_filter, List.filter_eq_nil_iff]
    intro p _
    by_cases h : p.userId = tid <;> simp [h]
  cases hA : lookupUser db.users adminName with
  | some aid =>
      have hlook := lookupUser_filter_out db.users target tid hnd hl
      have hsecond := admin_kick_notFound adminName target
        (admin_kick adminName (some target) reg db).2.1
        (admin_kick adminName (some target) reg db).2.2
      simp only [admin_kick, getOrCreateUser, hA, hl, cascadeDeleteUser] at hsecond ⊢
      refine ⟨⟨(removeConnsNamed reg target).2, rfl⟩, removeConnsNamed_clears reg target,
        hlook, hfilter_sessions db.sessions, hfilter_msgs db.messages, ?_⟩
      exact hsecond hlook hne
  | none =>
      have hl1 : lookupUser (db.users ++ [(db.nextUserId, adminName)]) target
          = some tid := by
        rw [lookupUser_append_ne db.users db.nextUserId adminName target hne]
        exact hl
      have hnd1 : ((db.users ++ [(db.nextUserId, adminName)]).map Prod.snd).Nodup := by
        rw [List.map_append]
        rw [List.nodup_append]
        refine ⟨hnd, by simp, ?_⟩
        intro x hx
        have hxne : ∀ p ∈ db.users, p.2 ≠ adminName :=
          (lookupUser_eq_none_iff db.users adminName).mp hA
        simp only [List.map_cons, List.map_nil, List.mem_singleton]
        intro hxeq
        obtain ⟨p, hp, hpx⟩ := List.mem_map.mp hx
        exact hxne p hp (by rw [hpx]; exact hxeq)
      have hlook := lookupUser_filter_out _ target tid hnd1 hl1
      have hsecond := admin_kick_notFound adminName target
        (admin_kick adminName (some target) reg db).2.1
        (admin_kick adminName (some target) reg db).2.2
      simp only [admin_kick, getOrCreateUser, hA, hl1, cascadeDeleteUser] at hsecond ⊢
      refine ⟨⟨(removeConnsNamed reg target).2, rfl⟩, removeConnsNamed_clears reg target,
        hlook, hfilter_sessions db.sessions, hfilter_msgs db.messages, ?_⟩
      exact hsecond hlook hne

/-- Witness for C8: admin "root" kicks "dave", who has one live connection and
a durable record with one session and one message. -/
theorem kick_effective_and_idempotent_c8_witness :
    let db : Db :=
      { users := [(1, "root"), (2, "dave")], nextUserId := 3
        sessions := [(2, true)]
        messages := [{ id := 0, userId := 2, text := "hi", toxicityFlag := false
                       toxicityScore := none, messageType := "chat", ts := 0 }]
        nextMsgId := 1, adminActions := [], muteSettings := [], threshold := none }
    let reg : Registry := { conns := [5], names := [(5, "dave")] }
    let r1 := admin_kick "root" (some "dave") reg db
    (∃ k, r1.1 = KickResult.ok k true) ∧
    r1.2.1.names.filter (fun p => p.2 = "dave") = [] ∧
    lookupUser r1.2.2.users "dave" = none ∧
    r1.2.2.sessions.filter (fun p => p.1 = 2) = [] ∧
    r1.2.2.messages.filter (fun pm => pm.userId = 2) = [] ∧
    (admin_kick "root" (some "dave") r1.2.1 r1.2.2).1 = KickResult.notFound ∧
    (admin_kick "root" (some "dave") r1.2.1 r1.2.2).2.2.adminActions =
      r1.2.2.adminActions :=
  kick_effective_and_idempotent_c8 "root" "dave"
    { conns := [5], names := [(5, "dave")] }
    { users := [(1, "root"), (2, "dave")], nextUserId := 3
      sessions := [(2, true)]
      messages := [{ id := 0, userId := 2, text := "hi", toxicityFlag := false
                     toxicityScore := none, messageType := "chat", ts := 0 }]
      nextMsgId := 1, adminActions := [], muteSettings := [], threshold := none }
    2 (by decide) (by decide) (by decide)

/-! ### Connection capacity (C9) -/

/-- Helper: a single registry event preserves the capacity bound: connection
attempts are turned away before acceptance once the live count reaches the
maximum, and disconnects only shrink the registry. -/
theorem wsStep_preserves_capacity (maxConns : ℕ) (reg : Registry) (op : WsOp) :
    reg.conns.length ≤ maxConns →
    (wsStep maxConns reg op).conns.length ≤ maxConns := by
  intro h
  cases op with
  | disconnect c =>
      show (removeConn reg c).conns.length ≤ maxConns
      unfold removeConn
      exact le_trans (List.length_filter_le _ _) h
  | attempt ht tv u c =>
      show (ws_connect ht tv u c maxConns reg).2.conns.length ≤ maxConns
      unfold ws_connect
      by_cases h1 : ht
      · by_cases h2 : tv
        · by_cases h3 : validate_username u
          · by_cases h4 : maxConns ≤ reg.conns.length
            · simp [h1, h2, h3, h4, h]
            · simp only [h1, h2, h3, h4, not_true, not_false_iff, if_true,
                if_false, Bool.not_eq_true]
              simp [addConn]
              split
              · exact h
              · simp
                omega
          · simp [h1, h2, h3, h]
        · simp [h1, h2, h]
      · simp [h1, h]

/-- **C9** (capacity): an attempt that reaches the capacity check (token
present, token valid, username well-formed) while the registry holds at least
`MAX_CONNECTIONS` live connections is closed with code 1013 before acceptance
and the registry is unchanged; and over every sequence of connection attempts
and disconnects from an empty registry, the live count never exceeds the
maximum. -/
theorem capacity_limit_c9 :
    (∀ (u : String) (c : ℕ) (maxConns : ℕ) (reg : Registry),
      validate_username u = true →
      maxConns ≤ reg.conns.length →
      ws_connect true true u c maxConns reg =
        (ConnectOutcome.closed 1013 "Server at capacity", reg)) ∧
    (∀ (maxConns : ℕ) (ops : List WsOp),
      (applyWsOps maxConns ops).conns.length ≤ maxConns) := by
  constructor
  · intro u c maxConns reg hu hcap
    simp [ws_connect, hu, hcap]
  · have inv : ∀ (maxConns : ℕ) (ops : List WsOp) (reg : Registry),
        reg.conns.length ≤ maxConns →
        (ops.foldl (wsStep maxConns) reg).conns.length ≤ maxConns := by
      intro maxConns ops
      induction ops with
      | nil => intro reg h; exact h
      | cons op rest ih =>
          intro reg h
          exact ih _ (wsStep_preserves_capacity maxConns reg op h)
    intro maxConns ops
    exact inv maxConns ops { conns := [], names := [] } (by simp)

/-- Witness for C9: with the maximum set to 1 and one live connection, a fully
authenticated attempt by "bob" is closed with the capacity code 1013 and the
registry is untouched. -/
theorem capacity_limit_c9_witness :
    ws_connect true true "bob" 9 1 { conns := [5], names := [(5, "alice")] } =
      (ConnectOutcome.closed 1013 "Server at capacity",
        { conns := [5], names := [(5, "alice")] }) :=
  capacity_limit_c9.1 "bob" 9 1 { conns := [5], names := [(5, "alice")] }
    (by decide) (by decide)

end SafeStream
